import Mathlib

set_option maxHeartbeats 1000000

namespace DownloadService

/-- Metadata record for one download job, mirroring the repository struct
downloadRequest (columns id, user_id, link, file_name, completed, error of
table downloads). Go int64 identifiers are modelled as Int. -/
structure downloadRequest where
  ID : Int
  UserID : Int
  Link : String
  FileName : String
  Completed : Bool
  Error : String
  deriving DecidableEq, Repr

/-- Shallow model of repository.GetDownloadRequest: SELECT the first row of
the downloads table whose id matches, or report not found (None). -/
def GetDownloadRequest (store : List downloadRequest) (downloadID : Int) :
    Option downloadRequest :=
  store.find? (fun r => r.ID == downloadID)

/-- Shallow model of repository.GetDownloadRequests: the SQL is
SELECT ... FROM downloads OFFSET page*limit LIMIT limit, with no filter on
user_id; the userID argument of the Go function is unused in the query. -/
def GetDownloadRequests (store : List downloadRequest) (userID : Int)
    (page : Int) (limit : Int) : List downloadRequest :=
  ((store.drop (page * limit).toNat).take limit.toNat)

/-- Shallow model of repository.CompleteDownloadRequest:
UPDATE downloads SET completed = TRUE WHERE id = downloadID. -/
def CompleteDownloadRequest (store : List downloadRequest) (downloadID : Int) :
    List downloadRequest :=
  store.map (fun r => if r.ID = downloadID then { r with Completed := true } else r)

/-- Shallow model of repository.MarkError:
UPDATE downloads SET error = msg WHERE id = downloadID. -/
def MarkError (store : List downloadRequest) (downloadID : Int) (msg : String) :
    List downloadRequest :=
  store.map (fun r => if r.ID = downloadID then { r with Error := msg } else r)

/-- Parse error taxonomy of strconv.ParseInt: ErrSyntax (malformed) or
ErrRange (outOfRange). -/
inductive ParseErr where
  | malformed
  | outOfRange
  deriving DecidableEq, Repr

/-- Value of a nonempty all-digit character list, None when the list is empty
or holds a non-digit character. -/
def digitsVal (cs : List Char) : Option Nat :=
  match cs with
  | [] => none
  | _ :: _ =>
    cs.foldl
      (fun acc c =>
        match acc with
        | none => none
        | some a => if c.isDigit then some (a * 10 + (c.toNat - 48)) else none)
      (some 0)

/-- Strip one optional leading sign character; returns (isNegative, rest). -/
def splitSign (cs : List Char) : Bool × List Char :=
  match cs with
  | '+' :: t => (false, t)
  | '-' :: t => (true, t)
  | t => (false, t)

def maxInt64 : Int := 2 ^ 63 - 1

def minInt64 : Int := -(2 ^ 63)

/-- Shallow model of Go strconv.ParseInt(s, 10, 64): an empty or malformed
decimal string yields value 0 with a malformed error; a value outside the
int64 range yields the clamped bound with an outOfRange error. -/
def goParseInt64 (s : String) : Int × Option ParseErr :=
  match digitsVal (splitSign s.toList).2 with
  | none => (0, some ParseErr.malformed)
  | some n =>
    if (splitSign s.toList).1 then
      if (n : Int) ≤ 2 ^ 63 then (-(n : Int), none)
      else (minInt64, some ParseErr.outOfRange)
    else
      if (n : Int) ≤ maxInt64 then ((n : Int), none)
      else (maxInt64, some ParseErr.outOfRange)

def NoMoreDownloadRequestErr : String := "There is no more download request in queue"

/-- Shallow model of repository.PushDownloadRequest: LPUSH of the decimal
rendering of the id onto the Redis list (head of the list model). -/
def PushDownloadRequest (queue : List String) (downloadID : Int) : List String :=
  toString downloadID :: queue

/-- Shallow model of repository.PopDownloadRequest: RPOP the oldest entry
(tail of the list model); an empty queue yields NoMoreDownloadRequestErr.
The strconv.ParseInt error on the popped string is discarded with a blank
identifier in the source, so the parsed value is returned with no error. -/
def PopDownloadRequest (queue : List String) : (Int × Option String) × List String :=
  match queue.getLast? with
  | none => ((0, some NoMoreDownloadRequestErr), queue)
  | some s => (((goParseInt64 s).1, none), queue.dropLast)

/-- Lease-lock state: Redis keys fmt.Sprint(downloadID) with absolute expiry
instants (seconds). A key whose expiry has passed behaves as absent. -/
def LockState : Type := List (Int × Nat)

/-- Whether an unexpired lease for the id exists at instant now (Redis key
present and not yet expired). -/
def lockHeld (locks : List (Int × Nat)) (downloadID : Int) (now : Nat) : Bool :=
  locks.any (fun p => p.1 == downloadID && decide (now < p.2))

/-- Shallow model of repository.AcquireLock: Redis SETNX with expiration —
atomically create the lease only if no unexpired lease exists; returns
whether this call won, and the new lock state. -/
def AcquireLock (now : Nat) (locks : List (Int × Nat)) (downloadID : Int)
    (ttl : Nat) : Bool × List (Int × Nat) :=
  if lockHeld locks downloadID now then (false, locks)
  else (true, (downloadID, now + ttl) :: locks.filter (fun p => p.1 != downloadID))

/-- Shallow model of repository.ReleaseLock: Redis DEL — unconditionally
remove any lease present for the id, whoever created it. -/
def ReleaseLock (locks : List (Int × Nat)) (downloadID : Int) : List (Int × Nat) :=
  locks.filter (fun p => p.1 != downloadID)

/-- Shallow model of repository.ExtendLock: Redis EXPIRE — reset the expiry
of an existing unexpired lease; returns whether a lease existed to extend. -/
def ExtendLock (now : Nat) (locks : List (Int × Nat)) (downloadID : Int)
    (ttl : Nat) : Bool × List (Int × Nat) :=
  if lockHeld locks downloadID now then
    (true, locks.map (fun p => if p.1 == downloadID then (p.1, now + ttl) else p))
  else (false, locks)

def SleepDurationInCaseOFNoDownloadRequest : Nat := 1

/-- Lease TTL used by the worker, LinkProcessingExpTime = 60 seconds. -/
def LinkProcessingExpTime : Nat := 60

/-- Read buffer size, 128 KB. -/
def DownloadBuffSizeBytes : Nat := 131072

/-- Durability flush threshold, 8 * 128 KB = 1 MB. -/
def FlushThresholdBytes : Nat := 8 * DownloadBuffSizeBytes

/-- Shallow model of worker.openFile: os.OpenFile with O_APPEND, O_CREATE,
O_RDWR — a missing file is created empty; returns the file content and its
length (the value of info.Size used as resume offset). -/
def openFile (existing : Option (List Nat)) : List Nat × Nat :=
  let content := existing.getD []
  (content, content.length)

/-- The Range header value set by the worker: fmt.Sprintf of bytes=offset-. -/
def rangeHeaderValue (offset : Nat) : String :=
  "bytes=" ++ toString offset ++ "-"

/-- State of the streaming loop: the local file bytes, the bytes written
since the last durability flush (the bytesRead counter of the source, reset
to 0 at every file.Sync), the totalBytesRead counter, and the length of the
file content already flushed to stable storage. -/
structure StreamState where
  file : List Nat
  bytesRead : Nat
  totalBytesRead : Nat
  flushedLen : Nat
  deriving DecidableEq, Repr

/-- One iteration of the streaming loop as seen by the worker: either the
context is observed cancelled, or resp.Body.Read yields a chunk of bytes
(whose file.Write or threshold file.Sync may fail with the given error), or
Read fails. End of the event list models a clean io.EOF. The model assumes a
read never returns bytes together with io.EOF, as is the case for HTTP
response bodies delivering their final chunk separately. -/
inductive LoopEvent where
  | cancelled (msg : String)
  | readChunk (bytes : List Nat) (writeErr : Option String) (flushErr : Option String)
  | readError (msg : String)
  deriving DecidableEq, Repr

/-- Outcome of one processing attempt: the nil error, a returned Go error,
or a runtime panic that unwinds out of the worker goroutine. -/
inductive Outcome where
  | ok
  | error (msg : String)
  | crash (msg : String)
  deriving DecidableEq, Repr

/-- Result of the streaming loop: the outcome, the download store after the
record updates of the loop, the final stream state, and the trace of stream
states at the start of each subsequent loop iteration. -/
structure StreamResult where
  outcome : Outcome
  store : List downloadRequest
  state : StreamState
  trace : List StreamState
  deriving Repr

/-- Shallow model of the streaming for-loop of worker.processDownloadRequest
(the select over ctx.Done and the default read-write-flush branch). On clean
io.EOF: a final file.Sync (finalSyncErr injects its failure), bytesRead is
reset, then CompleteDownloadRequest (completeDbErr injects a store failure
that is logged and recorded through MarkError). Every failure branch calls
MarkError with the raw error text and returns the wrapped error. -/
def streamLoop (downloadID : Int) (link : String)
    (finalSyncErr : Option String) (completeDbErr : Option String)
    (store : List downloadRequest) (s : StreamState) :
    List LoopEvent → StreamResult
  | [] =>
    match finalSyncErr with
    | some e =>
      { outcome := Outcome.error
          ("Error syncing file (for the last time) link " ++ link ++ ": " ++ e),
        store := MarkError store downloadID e, state := s, trace := [] }
    | none =>
      let s1 : StreamState := { s with bytesRead := 0, flushedLen := s.file.length }
      match completeDbErr with
      | some e =>
        { outcome := Outcome.error e,
          store := MarkError store downloadID e, state := s1, trace := [] }
      | none =>
        { outcome := Outcome.ok,
          store := CompleteDownloadRequest store downloadID, state := s1, trace := [] }
  | LoopEvent.cancelled msg :: _ =>
    { outcome := Outcome.error msg,
      store := MarkError store downloadID msg, state := s, trace := [] }
  | LoopEvent.readError msg :: _ =>
    { outcome := Outcome.error
        ("Error reading from HTTP response for link " ++ link ++ ": " ++ msg),
      store := MarkError store downloadID msg, state := s, trace := [] }
  | LoopEvent.readChunk bytes writeErr flushErr :: rest =>
    match writeErr with
    | some e =>
      { outcome := Outcome.error
          ("Error writing to file for link " ++ link ++ ": " ++ e),
        store := MarkError store downloadID e, state := s, trace := [] }
    | none =>
      let s1 : StreamState :=
        { file := s.file ++ bytes, bytesRead := s.bytesRead + bytes.length,
          totalBytesRead := s.totalBytesRead + bytes.length,
          flushedLen := s.flushedLen }
      if FlushThresholdBytes ≤ s1.bytesRead then
        match flushErr with
        | some e =>
          { outcome := Outcome.error
              ("Error syncing file for link " ++ link ++ ": " ++ e),
            store := MarkError store downloadID e, state := s1, trace := [] }
        | none =>
          let s2 : StreamState := { s1 with bytesRead := 0, flushedLen := s1.file.length }
          let r := streamLoop downloadID link finalSyncErr completeDbErr store s2 rest
          { r with trace := s2 :: r.trace }
      else
        let r := streamLoop downloadID link finalSyncErr completeDbErr store s1 rest
        { r with trace := s1 :: r.trace }

/-- Result of the HTTP round trip client.Do: a transport error leaves the
response nil, otherwise a status code and the stream of body read events. -/
inductive HttpResult where
  | transportError (msg : String)
  | response (status : Nat) (events : List LoopEvent)
  deriving DecidableEq, Repr

/-- Failure injection for one processing attempt: the results of the
fallible external calls made by worker.processDownloadRequest, in call
order. -/
structure Env where
  acquireErr : Option String
  openErr : Option String
  localFile : List Nat
  newRequestErr : Option String
  httpResult : HttpResult
  finalSyncErr : Option String
  completeDbErr : Option String
  deriving Repr

/-- Shared state an attempt can mutate: the downloads table and the Redis
lease keys. -/
structure World where
  store : List downloadRequest
  locks : List (Int × Nat)
  deriving DecidableEq, Repr

/-- Observable result of one worker.processDownloadRequest call: outcome,
final shared state, the Range header sent (if a request was built), whether
client.Do was invoked, the final local file content (if opened), and the
stream-state trace of the streaming loop. -/
structure AttemptResult where
  outcome : Outcome
  world : World
  rangeHeader : Option String
  fetchPerformed : Bool
  file : Option (List Nat)
  trace : List StreamState
  deriving Repr

/-- The Go runtime message of a nil pointer dereference. -/
def nilDerefMsg : String :=
  "runtime error: invalid memory address or nil pointer dereference"

/-- Shallow model of worker.processDownloadRequest. Faithful points: on a
contended lease the function returns before the deferred ReleaseLock is
registered, so the lock state is untouched; every later exit releases the
lease; on a client.Do transport error the source only logs and does not
return, so the deferred resp.Body.Close() dereferences the nil response and
the goroutine panics (the registered defers, ReleaseLock among them, still
run while unwinding); any status other than 206 or 200 is recorded through
MarkError and returned as an error with no retry. -/
def processDownloadRequest (env : Env) (now : Nat) (w : World)
    (downloadID : Int) : AttemptResult :=
  match GetDownloadRequest w.store downloadID with
  | none =>
    { outcome := Outcome.error
        ("Failed to retrieve download request " ++ toString downloadID),
      world := w, rangeHeader := none, fetchPerformed := false,
      file := none, trace := [] }
  | some req =>
    match env.acquireErr with
    | some e =>
      { outcome := Outcome.error ("Failed to acquire lock: " ++ e),
        world := w, rangeHeader := none, fetchPerformed := false,
        file := none, trace := [] }
    | none =>
      let acq := AcquireLock now w.locks downloadID LinkProcessingExpTime
      if acq.1 = false then
        { outcome := Outcome.error
            ("Download request " ++ toString downloadID ++ " is already being processed:"),
          world := { w with locks := acq.2 }, rangeHeader := none,
          fetchPerformed := false, file := none, trace := [] }
      else
        match env.openErr with
        | some e =>
          { outcome := Outcome.error
              ("Failed to open file for download request " ++ toString downloadID ++ ": " ++ e),
            world := { store := MarkError w.store downloadID e,
                       locks := ReleaseLock acq.2 downloadID },
            rangeHeader := none, fetchPerformed := false, file := none, trace := [] }
        | none =>
          let opened := openFile (some env.localFile)
          match env.newRequestErr with
          | some e =>
            { outcome := Outcome.error
                ("Failed to create HTTP request for link " ++ req.Link ++ ": " ++ e),
              world := { store := MarkError w.store downloadID e,
                         locks := ReleaseLock acq.2 downloadID },
              rangeHeader := none, fetchPerformed := false,
              file := some opened.1, trace := [] }
          | none =>
            let header := rangeHeaderValue opened.2
            match env.httpResult with
            | HttpResult.transportError e =>
              { outcome := Outcome.crash nilDerefMsg,
                world := { store := MarkError w.store downloadID e,
                           locks := ReleaseLock acq.2 downloadID },
                rangeHeader := some header, fetchPerformed := true,
                file := some opened.1, trace := [] }
            | HttpResult.response status events =>
              if status ≠ 206 ∧ status ≠ 200 then
                let e := "Unexpected HTTP status code for link " ++ req.Link
                  ++ ": " ++ toString status
                { outcome := Outcome.error e,
                  world := { store := MarkError w.store downloadID e,
                             locks := ReleaseLock acq.2 downloadID },
                  rangeHeader := some header, fetchPerformed := true,
                  file := some opened.1, trace := [] }
              else
                let s0 : StreamState :=
                  { file := opened.1, bytesRead := 0, totalBytesRead := 0,
                    flushedLen := opened.1.length }
                let r := streamLoop downloadID req.Link env.finalSyncErr
                  env.completeDbErr w.store s0 events
                { outcome := r.outcome,
                  world := { store := r.store,
                             locks := ReleaseLock acq.2 downloadID },
                  rangeHeader := some header, fetchPerformed := true,
                  file := some r.state.file, trace := r.trace }

/-- State of the lease-renewal goroutine spawned by processDownloadRequest:
running (blocked in its select) or stopped (returned). -/
inductive RenewState where
  | running
  | stopped
  deriving DecidableEq, Repr

/-- Events visible to the lease-renewal goroutine: a ticker tick (it calls
ExtendLock and loops), context cancellation (it returns), and the deferred
ticker.Stop() that runs when streaming ends. Ticker.Stop does not close the
tick channel, so it delivers nothing the select of the goroutine can
observe. -/
inductive RenewEvent where
  | tick
  | cancel
  | tickerStop
  deriving DecidableEq, Repr

/-- One step of the lease-renewal goroutine select loop: a tick keeps it
running (after an ExtendLock call), only context cancellation makes it
return; ticker.Stop leaves it blocked in the select. -/
def renewStep : RenewState → RenewEvent → RenewState
  | RenewState.running, RenewEvent.tick => RenewState.running
  | RenewState.running, RenewEvent.tickerStop => RenewState.running
  | RenewState.running, RenewEvent.cancel => RenewState.stopped
  | RenewState.stopped, _ => RenewState.stopped

/-- The lease-renewal goroutine after a sequence of events, started running. -/
def runRenew (events : List RenewEvent) : RenewState :=
  events.foldl renewStep RenewState.running

/-- The ticker period chosen by the source: LinkProcessingExpTime / 2. -/
def tickerInterval : Nat := LinkProcessingExpTime / 2

/-- Looking up the addressed record after MarkError yields the original
record with its Error field overwritten. -/
theorem GetDownloadRequest_MarkError (store : List downloadRequest)
    (downloadID : Int) (msg : String) :
    GetDownloadRequest (MarkError store downloadID msg) downloadID
      = (GetDownloadRequest store downloadID).map (fun r => { r with Error := msg }) := by
  induction store with
  | nil => rfl
  | cons r rest ih =>
    by_cases h : r.ID = downloadID
    · simp [GetDownloadRequest, MarkError, List.find?_cons, h]
    · simp only [GetDownloadRequest, MarkError, List.map_cons] at ih ⊢
      rw [if_neg h]
      rw [List.find?_cons_of_neg, List.find?_cons_of_neg, ih]
      · simp [h]
      · simp [h]

/-- No lease for the id remains after ReleaseLock, at any instant. -/
theorem lockHeld_ReleaseLock (locks : List (Int × Nat)) (downloadID : Int)
    (t : Nat) :
    lockHeld (ReleaseLock locks downloadID) downloadID t = false := by
  induction locks with
  | nil => rfl
  | cons p rest ih =>
    by_cases h : p.1 = downloadID
    · simpa [ReleaseLock, List.filter_cons, h] using ih
    · have hb : (p.1 != downloadID) = true := by simp [h]
      simp only [ReleaseLock, List.filter_cons, hb, if_true] at ih ⊢
      simp only [lockHeld, List.any_cons] at ih ⊢
      simp [h, ih]

/-- The streaming loop over clean chunk events (no write, flush, read or
cancellation failure, clean EOF) appends the concatenation of the chunks to
the file and completes with Outcome.ok, marking the record completed. -/
theorem streamLoop_clean (downloadID : Int) (link : String)
    (store : List downloadRequest) (chunks : List (List Nat)) (s : StreamState) :
    (streamLoop downloadID link none none store s
        (chunks.map (fun b => LoopEvent.readChunk b none none))).state.file
      = s.file ++ chunks.flatten ∧
    (streamLoop downloadID link none none store s
        (chunks.map (fun b => LoopEvent.readChunk b none none))).outcome
      = Outcome.ok := by
  induction chunks generalizing s with
  | nil => simp [streamLoop]
  | cons b rest ih =>
    simp only [List.map_cons, streamLoop]
    by_cases h : FlushThresholdBytes ≤ s.bytesRead + b.length
    · simp only [if_pos h]
      have hrec := ih { file := s.file ++ b, bytesRead := 0,
                        totalBytesRead := s.totalBytesRead + b.length,
                        flushedLen := (s.file ++ b).length }
      simpa [List.append_assoc] using hrec
    · simp only [if_neg h]
      have hrec := ih { file := s.file ++ b, bytesRead := s.bytesRead + b.length,
                        totalBytesRead := s.totalBytesRead + b.length,
                        flushedLen := s.flushedLen }
      simpa [List.append_assoc] using hrec

/-- Flush discipline of the streaming loop: every state at an iteration
boundary carries strictly less than FlushThresholdBytes unflushed bytes, and
a run that ends in Outcome.ok has performed the final flush, leaving zero
unflushed bytes with the whole file durable. -/
theorem streamLoop_flush_bound (downloadID : Int) (link : String)
    (fse cde : Option String) (store : List downloadRequest)
    (events : List LoopEvent) (s : StreamState) :
    (∀ st ∈ (streamLoop downloadID link fse cde store s events).trace,
        st.bytesRead < FlushThresholdBytes) ∧
    ((streamLoop downloadID link fse cde store s events).outcome = Outcome.ok →
      (streamLoop downloadID link fse cde store s events).state.bytesRead = 0 ∧
      (streamLoop downloadID link fse cde store s events).state.flushedLen
        = (streamLoop downloadID link fse cde store s events).state.file.length) := by
  induction events generalizing s with
  | nil =>
    cases hf : fse with
    | some e => simp [streamLoop, hf]
    | none =>
      cases hc : cde with
      | some e => simp [streamLoop, hf, hc]
      | none => simp [streamLoop, hf, hc]
  | cons ev rest ih =>
    cases ev with
    | cancelled msg => simp [streamLoop]
    | readError msg => simp [streamLoop]
    | readChunk bytes writeErr flushErr =>
      cases hw : writeErr with
      | some e => simp [streamLoop, hw]
      | none =>
        simp only [streamLoop, hw]
        by_cases h : FlushThresholdBytes ≤ s.bytesRead + bytes.length
        · simp only [if_pos h]
          cases hfl : flushErr with
          | some e => simp [hfl]
          | none =>
            simp only [hfl]
            constructor
            · intro st hst
              rcases List.mem_cons.mp hst with rfl | hmem
              · have : 0 < FlushThresholdBytes := by decide
                simpa using this
              · exact (ih _).1 st hmem
            · exact (ih _).2
        · simp only [if_neg h]
          constructor
          · intro st hst
            rcases List.mem_cons.mp hst with rfl | hmem
            · simpa using Nat.lt_of_not_le h
            · exact (ih _).1 st hmem
          · exact (ih _).2

/-- C2: among acquire calls made while no unexpired lease exists for a job
id, the first returns true; every later acquire for the same id within the
TTL window returns false and leaves the lock state unchanged, until
ReleaseLock removes the lease or the TTL expires, after which an acquire
succeeds again. -/
theorem acquire_exactly_one_winner (locks : List (Int × Nat)) (downloadID : Int)
    (ttl : Nat) (now : Nat)
    (hfree : lockHeld locks downloadID now = false) :
    (AcquireLock now locks downloadID ttl).1 = true ∧
    (∀ n2, now ≤ n2 → n2 < now + ttl →
      AcquireLock n2 (AcquireLock now locks downloadID ttl).2 downloadID ttl
        = (false, (AcquireLock now locks downloadID ttl).2)) ∧
    (∀ n2, (AcquireLock n2
        (ReleaseLock (AcquireLock now locks downloadID ttl).2 downloadID)
        downloadID ttl).1 = true) ∧
    (∀ n3, now + ttl ≤ n3 →
      (AcquireLock n3 (AcquireLock now locks downloadID ttl).2 downloadID ttl).1 = true) := by
  have hstep : AcquireLock now locks downloadID ttl
      = (true, (downloadID, now + ttl) :: ReleaseLock locks downloadID) := by
    simp [AcquireLock, ReleaseLock, hfree]
  refine ⟨by simp [hstep], ?_, ?_, ?_⟩
  · intro n2 _ hlt
    have hheld : lockHeld ((downloadID, now + ttl) :: ReleaseLock locks downloadID)
        downloadID n2 = true := by
      simp [lockHeld, List.any_cons, hlt]
    rw [hstep]
    simp [AcquireLock, hheld]
  · intro n2
    rw [hstep]
    have hrel : ReleaseLock ((downloadID, now + ttl) :: ReleaseLock locks downloadID)
        downloadID = ReleaseLock (ReleaseLock locks downloadID) downloadID := by
      simp [ReleaseLock, List.filter_cons]
    rw [hrel]
    simp [AcquireLock, lockHeld_ReleaseLock]
  · intro n3 hle
    have hnot : lockHeld ((downloadID, now + ttl) :: ReleaseLock locks downloadID)
        downloadID n3 = false := by
      have h1 : ¬ n3 < now + ttl := Nat.not_lt.mpr hle
      have h2 := lockHeld_ReleaseLock locks downloadID n3
      simp only [lockHeld, List.any_cons] at h2 ⊢
      simp [h1, h2]
    rw [hstep]
    simp [AcquireLock, hnot]

/-- C2 witness: a fresh lock state, job id 7, TTL 60 acquired at instant 0. -/
theorem acquire_exactly_one_winner_witness :
    lockHeld [] 7 0 = false ∧
    ((AcquireLock 0 [] 7 60).1 = true ∧
     (∀ n2, 0 ≤ n2 → n2 < 0 + 60 →
       AcquireLock n2 (AcquireLock 0 [] 7 60).2 7 60
         = (false, (AcquireLock 0 [] 7 60).2)) ∧
     (∀ n2, (AcquireLock n2
         (ReleaseLock (AcquireLock 0 [] 7 60).2 7) 7 60).1 = true) ∧
     (∀ n3, 0 + 60 ≤ n3 →
       (AcquireLock n3 (AcquireLock 0 [] 7 60).2 7 60).1 = true)) :=
  ⟨by decide, acquire_exactly_one_winner [] 7 60 0 (by decide)⟩

/-- C6: the lease-renewal goroutine ticks at half the lease TTL, but when
streaming ends (the deferred ticker.Stop runs) without a context
cancellation, it does not stop: it stays blocked in its select forever, a
leaked background activity, because Ticker.Stop does not close the tick
channel and only ctx.Done can make the goroutine return. -/
theorem renewal_goroutine_leaks_after_stream_end :
    tickerInterval = LinkProcessingExpTime / 2 ∧
    runRenew [RenewEvent.tick, RenewEvent.tickerStop] = RenewState.running ∧
    runRenew [RenewEvent.tick, RenewEvent.cancel] = RenewState.stopped := by
  decide

/-- C8: GetDownloadRequests never filters by its userID argument — the SQL
has no user_id predicate — so any two callers receive the identical page,
and a caller receives records owned by other users. -/
theorem getDownloadRequests_ignores_userID :
    (∀ (store : List downloadRequest) (u1 u2 page limit : Int),
      GetDownloadRequests store u1 page limit
        = GetDownloadRequests store u2 page limit) ∧
    GetDownloadRequests
        [{ ID := 1, UserID := 2, Link := "http://other/file", FileName := "f1",
           Completed := false, Error := "" }] 1 0 1
      = [{ ID := 1, UserID := 2, Link := "http://other/file", FileName := "f1",
           Completed := false, Error := "" }] :=
  ⟨fun _ _ _ _ _ => rfl, rfl⟩

/-- A malformed decimal string parses to value 0. -/
theorem goParseInt64_malformed_val (s : String)
    (h : (goParseInt64 s).2 = some ParseErr.malformed) :
    (goParseInt64 s).1 = 0 := by
  unfold goParseInt64 at h ⊢
  cases hd : digitsVal (splitSign s.toList).2 with
  | none => simp [hd]
  | some n =>
    exfalso
    simp only [hd] at h
    by_cases hs : (splitSign s.toList).1 = true
    · rw [if_pos hs] at h
      split at h <;> simp at h
    · rw [if_neg hs] at h
      split at h <;> simp at h

/-- C9: popping a queue entry that is not parseable as a decimal integer
returns job id 0 with no error: the strconv.ParseInt failure is silently
discarded by PopDownloadRequest. -/
theorem pop_discards_parse_failure (queue : List String) (s : String)
    (h : (goParseInt64 s).2 = some ParseErr.malformed) :
    PopDownloadRequest (queue ++ [s]) = ((0, none), queue) := by
  have hv : (goParseInt64 s).1 = 0 := goParseInt64_malformed_val s h
  simp [PopDownloadRequest, hv]

/-- C9 witness: the oldest queue entry is the non-numeric string abc. -/
theorem pop_discards_parse_failure_witness :
    (goParseInt64 "abc").2 = some ParseErr.malformed ∧
    PopDownloadRequest (["7"] ++ ["abc"]) = ((0, none), ["7"]) :=
  ⟨by decide, pop_discards_parse_failure ["7"] "abc" (by decide)⟩

/-- C10: CompleteDownloadRequest sets only the Completed flag of the
addressed record and leaves every other field of every record unchanged; in
particular the Error field is not cleared, so a job completed after an
earlier failed attempt keeps its old non-empty lastError next to
Completed = true. -/
theorem complete_sets_only_completed_flag :
    (∀ (store : List downloadRequest) (downloadID : Int),
      CompleteDownloadRequest store downloadID
        = store.map (fun r =>
            { ID := r.ID, UserID := r.UserID, Link := r.Link,
              FileName := r.FileName,
              Completed := if r.ID = downloadID then true else r.Completed,
              Error := r.Error })) ∧
    CompleteDownloadRequest
        [{ ID := 3, UserID := 1, Link := "http://x/f", FileName := "f3",
           Completed := false, Error := "Unexpected HTTP status code for link http://x/f: 503" }] 3
      = [{ ID := 3, UserID := 1, Link := "http://x/f", FileName := "f3",
           Completed := true, Error := "Unexpected HTTP status code for link http://x/f: 503" }] := by
  constructor
  · intro store downloadID
    unfold CompleteDownloadRequest
    congr 1
    funext r
    cases r with
    | mk ID UserID Link FileName Completed Error =>
      by_cases h : ID = downloadID <;> simp [h]
  · rfl

/-- C4: throughout the streaming loop of an attempt (entered with zero bytes
pending since the last flush), the bytes written since the last durability
flush stay under the 1 MB FlushThresholdBytes at every iteration boundary —
a flush is forced whenever the counter reaches the threshold — and a run
that ends successfully performs one more flush after the stream ends,
leaving the whole file durable and zero bytes unflushed. -/
theorem flush_every_megabyte (downloadID : Int) (link : String)
    (fse cde : Option String) (store : List downloadRequest)
    (events : List LoopEvent) (localFile : List Nat) :
    FlushThresholdBytes = 1048576 ∧
    (∀ st ∈ (streamLoop downloadID link fse cde store
        { file := localFile, bytesRead := 0, totalBytesRead := 0,
          flushedLen := localFile.length } events).trace,
      st.bytesRead < FlushThresholdBytes) ∧
    ((streamLoop downloadID link fse cde store
        { file := localFile, bytesRead := 0, totalBytesRead := 0,
          flushedLen := localFile.length } events).outcome = Outcome.ok →
      (streamLoop downloadID link fse cde store
        { file := localFile, bytesRead := 0, totalBytesRead := 0,
          flushedLen := localFile.length } events).state.bytesRead = 0 ∧
      (streamLoop downloadID link fse cde store
        { file := localFile, bytesRead := 0, totalBytesRead := 0,
          flushedLen := localFile.length } events).state.flushedLen
        = (streamLoop downloadID link fse cde store
            { file := localFile, bytesRead := 0, totalBytesRead := 0,
              flushedLen := localFile.length } events).state.file.length) := by
  refine ⟨by decide, ?_, ?_⟩
  · exact (streamLoop_flush_bound downloadID link fse cde store events _).1
  · exact (streamLoop_flush_bound downloadID link fse cde store events _).2

/-- C4 witness: a concrete two-chunk stream ending in a clean EOF. -/
theorem flush_every_megabyte_witness :
    FlushThresholdBytes = 1048576 ∧
    (∀ st ∈ (streamLoop 5 "http://x/f" none none []
        { file := ([] : List Nat), bytesRead := 0, totalBytesRead := 0,
          flushedLen := ([] : List Nat).length }
        [LoopEvent.readChunk [7, 7] none none,
          LoopEvent.readChunk [1] none none]).trace,
      st.bytesRead < FlushThresholdBytes) ∧
    ((streamLoop 5 "http://x/f" none none []
        { file := ([] : List Nat), bytesRead := 0, totalBytesRead := 0,
          flushedLen := ([] : List Nat).length }
        [LoopEvent.readChunk [7, 7] none none,
          LoopEvent.readChunk [1] none none]).outcome = Outcome.ok →
      (streamLoop 5 "http://x/f" none none []
        { file := ([] : List Nat), bytesRead := 0, totalBytesRead := 0,
          flushedLen := ([] : List Nat).length }
        [LoopEvent.readChunk [7, 7] none none,
          LoopEvent.readChunk [1] none none]).state.bytesRead = 0 ∧
      (streamLoop 5 "http://x/f" none none []
        { file := ([] : List Nat), bytesRead := 0, totalBytesRead := 0,
          flushedLen := ([] : List Nat).length }
        [LoopEvent.readChunk [7, 7] none none,
          LoopEvent.readChunk [1] none none]).state.flushedLen
        = (streamLoop 5 "http://x/f" none none []
            { file := ([] : List Nat), bytesRead := 0, totalBytesRead := 0,
              flushedLen := ([] : List Nat).length }
            [LoopEvent.readChunk [7, 7] none none,
              LoopEvent.readChunk [1] none none]).state.file.length) :=
  flush_every_megabyte 5 "http://x/f" none none []
    [LoopEvent.readChunk [7, 7] none none, LoopEvent.readChunk [1] none none] []

/-- C5: a response status that is neither 200 nor 206 is a terminal failure
for the attempt with no internal retry: the attempt returns an error, the
addressed record keeps its Completed value (false stays false) while its
Error field is overwritten with the status message, and no lease for the job
remains held at any instant after the attempt. -/
theorem status_error_is_terminal (env : Env) (now : Nat) (w : World)
    (downloadID : Int) (req : downloadRequest) (status : Nat)
    (events : List LoopEvent)
    (hreq : GetDownloadRequest w.store downloadID = some req)
    (hacq : env.acquireErr = none)
    (hfree : lockHeld w.locks downloadID now = false)
    (hopen : env.openErr = none)
    (hnew : env.newRequestErr = none)
    (hresp : env.httpResult = HttpResult.response status events)
    (h206 : status ≠ 206) (h200 : status ≠ 200) :
    (processDownloadRequest env now w downloadID).outcome
      = Outcome.error ("Unexpected HTTP status code for link " ++ req.Link
          ++ ": " ++ toString status) ∧
    GetDownloadRequest (processDownloadRequest env now w downloadID).world.store
        downloadID
      = some { req with Error := "Unexpected HTTP status code for link " ++ req.Link
          ++ ": " ++ toString status } ∧
    (∀ t, lockHeld (processDownloadRequest env now w downloadID).world.locks
        downloadID t = false) := by
  have hmark := GetDownloadRequest_MarkError w.store downloadID
    ("Unexpected HTTP status code for link " ++ req.Link ++ ": " ++ toString status)
  refine ⟨?_, ?_, ?_⟩
  · simp [processDownloadRequest, hreq, hacq, hopen, hnew, hresp, AcquireLock,
      hfree, h206, h200]
  · simp [processDownloadRequest, hreq, hacq, hopen, hnew, hresp, AcquireLock,
      hfree, h206, h200, hmark]
  · intro t
    simp [processDownloadRequest, hreq, hacq, hopen, hnew, hresp, AcquireLock,
      hfree, h206, h200, lockHeld_ReleaseLock]

/-- C7: when lease acquisition fails, the attempt aborts before the deferred
release is registered and before any fetch: the shared state (store and
locks) is untouched, no HTTP request is performed, and the attempt reports
the already-being-processed error. -/
theorem contended_lease_frame (env : Env) (now : Nat) (w : World)
    (downloadID : Int) (req : downloadRequest)
    (hreq : GetDownloadRequest w.store downloadID = some req)
    (hacq : env.acquireErr = none)
    (hheld : lockHeld w.locks downloadID now = true) :
    (processDownloadRequest env now w downloadID).world = w ∧
    (processDownloadRequest env now w downloadID).fetchPerformed = false ∧
    (processDownloadRequest env now w downloadID).outcome
      = Outcome.error ("Download request " ++ toString downloadID
          ++ " is already being processed:") := by
  refine ⟨?_, ?_, ?_⟩ <;>
    simp [processDownloadRequest, hreq, hacq, AcquireLock, hheld]

/-- C3: a fetch attempt against a local file of current length L opens it in
create-if-absent append mode (a missing file opens as empty with offset 0),
takes L as the resume offset, sends one ranged request whose Range header is
bytes=L-, and — assuming the remote resource is stable (the local file is
the remote prefix of length L) and honors the range (the body delivers
exactly the remote bytes from L on) — the resulting file is byte-identical
to a fresh, uninterrupted download of the whole remote content. -/
theorem resumed_fetch_byte_identical (env : Env) (now : Nat) (w : World)
    (downloadID : Int) (req : downloadRequest) (remote : List Nat)
    (chunks : List (List Nat)) (status : Nat)
    (hreq : GetDownloadRequest w.store downloadID = some req)
    (hacq : env.acquireErr = none)
    (hfree : lockHeld w.locks downloadID now = false)
    (hopen : env.openErr = none)
    (hnew : env.newRequestErr = none)
    (hstatus : status = 206 ∨ status = 200)
    (hresp : env.httpResult = HttpResult.response status
      (chunks.map (fun b => LoopEvent.readChunk b none none)))
    (hfse : env.finalSyncErr = none) (hcde : env.completeDbErr = none)
    (hstable : env.localFile = remote.take env.localFile.length)
    (hbody : chunks.flatten = remote.drop env.localFile.length) :
    openFile (some env.localFile) = (env.localFile, env.localFile.length) ∧
    openFile none = ([], 0) ∧
    (processDownloadRequest env now w downloadID).rangeHeader
      = some ("bytes=" ++ toString env.localFile.length ++ "-") ∧
    (processDownloadRequest env now w downloadID).file = some remote ∧
    (processDownloadRequest env now w downloadID).outcome = Outcome.ok := by
  have hremote : env.localFile ++ chunks.flatten = remote := by
    rw [hbody]
    nth_rewrite 1 [hstable]
    exact List.take_append_drop _ _
  have hclean := streamLoop_clean downloadID req.Link w.store chunks
    { file := env.localFile, bytesRead := 0, totalBytesRead := 0,
      flushedLen := env.localFile.length }
  refine ⟨rfl, rfl, ?_, ?_, ?_⟩
  · rcases hstatus with rfl | rfl <;>
      simp [processDownloadRequest, hreq, hacq, hopen, hnew, hresp, AcquireLock,
        hfree, hfse, hcde, openFile, rangeHeaderValue]
  · rcases hstatus with rfl | rfl <;>
      simp [processDownloadRequest, hreq, hacq, hopen, hnew, hresp, AcquireLock,
        hfree, hfse, hcde, openFile] <;>
      rw [hclean.1, hremote]
  · rcases hstatus with rfl | rfl <;>
      simp [processDownloadRequest, hreq, hacq, hopen, hnew, hresp, AcquireLock,
        hfree, hfse, hcde, openFile] <;>
      exact hclean.2

/-- Concrete fixture for the C5 witness: a pending job record. -/
def c5Record : downloadRequest :=
  { ID := 9, UserID := 2, Link := "http://x/f", FileName := "f9",
    Completed := false, Error := "" }

/-- Concrete fixture for the C5 witness: the remote answers HTTP 404. -/
def c5Env : Env :=
  { acquireErr := none, openErr := none, localFile := [],
    newRequestErr := none, httpResult := HttpResult.response 404 [],
    finalSyncErr := none, completeDbErr := none }

/-- C5 witness: one attempt against a source returning HTTP 404. -/
theorem status_error_is_terminal_witness :
    GetDownloadRequest [c5Record] 9 = some c5Record ∧
    lockHeld [] 9 0 = false ∧
    ((processDownloadRequest c5Env 0 { store := [c5Record], locks := [] } 9).outcome
        = Outcome.error ("Unexpected HTTP status code for link " ++ c5Record.Link
            ++ ": " ++ toString 404) ∧
      GetDownloadRequest
          (processDownloadRequest c5Env 0 { store := [c5Record], locks := [] } 9).world.store 9
        = some { c5Record with
            Error := "Unexpected HTTP status code for link " ++ c5Record.Link
              ++ ": " ++ toString 404 } ∧
      (∀ t, lockHeld
          (processDownloadRequest c5Env 0 { store := [c5Record], locks := [] } 9).world.locks
          9 t = false)) :=
  ⟨by decide, by decide,
    status_error_is_terminal c5Env 0 { store := [c5Record], locks := [] } 9
      c5Record 404 [] (by decide) rfl (by decide) rfl rfl rfl
      (by decide) (by decide)⟩

/-- Concrete fixture for the C7 witness: a pending job record. -/
def c7Record : downloadRequest :=
  { ID := 4, UserID := 3, Link := "http://y/g", FileName := "g4",
    Completed := false, Error := "" }

/-- Concrete fixture for the C7 witness: an environment that would let the
fetch succeed if it ran; the attempt must abort before ever consulting it. -/
def c7Env : Env :=
  { acquireErr := none, openErr := none, localFile := [],
    newRequestErr := none, httpResult := HttpResult.response 200 [],
    finalSyncErr := none, completeDbErr := none }

/-- C7 witness: another worker already holds the lease for job 4. -/
theorem contended_lease_frame_witness :
    GetDownloadRequest [c7Record] 4 = some c7Record ∧
    lockHeld [(4, 50)] 4 0 = true ∧
    ((processDownloadRequest c7Env 0 { store := [c7Record], locks := [(4, 50)] } 4).world
        = { store := [c7Record], locks := [(4, 50)] } ∧
      (processDownloadRequest c7Env 0 { store := [c7Record], locks := [(4, 50)] } 4).fetchPerformed
        = false ∧
      (processDownloadRequest c7Env 0 { store := [c7Record], locks := [(4, 50)] } 4).outcome
        = Outcome.error ("Download request " ++ toString (4 : Int)
            ++ " is already being processed:")) :=
  ⟨by decide, by decide,
    contended_lease_frame c7Env 0 { store := [c7Record], locks := [(4, 50)] } 4
      c7Record (by decide) rfl (by decide)⟩

/-- Concrete fixture for the C3 witness: a pending job record. -/
def c3Record : downloadRequest :=
  { ID := 11, UserID := 6, Link := "http://z/h", FileName := "h11",
    Completed := false, Error := "" }

/-- Concrete fixture for the C3 witness: one byte already on disk, the
remote has three bytes and serves the missing suffix with HTTP 206. -/
def c3Env : Env :=
  { acquireErr := none, openErr := none, localFile := [1],
    newRequestErr := none,
    httpResult := HttpResult.response 206 [LoopEvent.readChunk [2, 3] none none],
    finalSyncErr := none, completeDbErr := none }

/-- C3 witness: resuming at offset 1 of a three-byte remote resource. -/
theorem resumed_fetch_byte_identical_witness :
    GetDownloadRequest [c3Record] 11 = some c3Record ∧
    lockHeld [] 11 0 = false ∧
    c3Env.localFile = [1, 2, 3].take c3Env.localFile.length ∧
    [[2, 3]].flatten = [1, 2, 3].drop c3Env.localFile.length ∧
    (openFile (some c3Env.localFile) = (c3Env.localFile, c3Env.localFile.length) ∧
      openFile none = ([], 0) ∧
      (processDownloadRequest c3Env 0 { store := [c3Record], locks := [] } 11).rangeHeader
        = some ("bytes=" ++ toString c3Env.localFile.length ++ "-") ∧
      (processDownloadRequest c3Env 0 { store := [c3Record], locks := [] } 11).file
        = some [1, 2, 3] ∧
      (processDownloadRequest c3Env 0 { store := [c3Record], locks := [] } 11).outcome
        = Outcome.ok) :=
  ⟨by decide, by decide, by decide, by decide,
    resumed_fetch_byte_identical c3Env 0 { store := [c3Record], locks := [] } 11
      c3Record [1, 2, 3] [[2, 3]] 206 (by decide) rfl (by decide) rfl rfl
      (Or.inl rfl) rfl rfl rfl (by decide) (by decide)⟩

/-- Concrete fixture for the C1 counterevidence: a well-formed job record. -/
def c1Record : downloadRequest :=
  { ID := 5, UserID := 1, Link := "http://example.com/f", FileName := "f5",
    Completed := false, Error := "" }

/-- Concrete fixture for the C1 counterevidence: every external call up to
the HTTP round trip succeeds, and client.Do fails with a transport error. -/
def c1Env : Env :=
  { acquireErr := none, openErr := none, localFile := [],
    newRequestErr := none,
    httpResult := HttpResult.transportError "connection refused",
    finalSyncErr := none, completeDbErr := none }

/-- C1 evidence: an attempt whose HTTP round trip fails with a transport
error does not end as an ordinary error — the source logs the failure
without returning, so the deferred resp.Body.Close() dereferences the nil
response and the attempt dies in a panic that unwinds the worker goroutine,
contradicting the claim that every such failure leaves the worker loop
alive. -/
theorem transport_error_crashes_attempt :
    (processDownloadRequest c1Env 0 { store := [c1Record], locks := [] } 5).outcome
      = Outcome.crash nilDerefMsg := by
  rfl

end DownloadService
